import Mathlib

/-!
Verification development for `eam-utility.py`, a CLI maintaining the
ESX Agent Manager trust store: a JSON object mapping URL strings to either
a pinned PEM certificate string or the literal marker `AnyCertificate`.

The embedding models the trust store as an association list with the
Python-dict semantics of `json.load` output (unique keys, insertion order,
`d[k] = v` replaces in place, `del d[k]` removes the key), and each of the
CLI operations as a pure function from the on-disk file state (`none` when
the file does not exist) to the resulting file state together with the
returned status code and the observable effects (whether the trust file
was read, whether it was written, whether an uncaught exception escaped
the operation).
-/

namespace EamUtility

/-- `_DISABLED_MARKER` from the source: the sentinel value stored for a URL
whose trust checking is disabled. -/
def DISABLED_MARKER : String := "AnyCertificate"

/-- A loaded trust store: the JSON object as an association list of
URL/value pairs. `json.load` yields a dict, so keys are unique. -/
abbrev Trust := List (String × String)

/-- First value bound to key `u`, as Python `t[u]` / `u in t`. -/
def lookup : Trust → String → Option String
  | [], _ => none
  | (k, v) :: t, u => if k = u then some v else lookup t u

/-- Python `t[u] = v` on a dict: replace the value at an existing key in
place, otherwise append the new pair at the end. -/
def setKey : Trust → String → String → Trust
  | [], u, v => [(u, v)]
  | (k, w) :: t, u, v => if k = u then (u, v) :: t else (k, w) :: setKey t u v

/-- Python `del t[u]` on a dict: drop every pair whose key is `u`
(on unique-key stores this is exactly removal of the one entry). -/
def delKey : Trust → String → Trust
  | [], _ => []
  | (k, w) :: t, u => if k = u then delKey t u else (k, w) :: delKey t u

/-- The keys of a store, for the unique-keys invariant of JSON objects. -/
def keys (t : Trust) : List String := t.map Prod.fst

/-- ASCII lowercasing of one character, as Python `str.lower` acts on the
ASCII range (the only range exercised by URLs and answers here). -/
def lowerChar (c : Char) : Char :=
  if 65 ≤ c.toNat ∧ c.toNat ≤ 90 then Char.ofNat (c.toNat + 32) else c

/-- `startsWithList s p` is Python `s.startswith(p)` on character lists. -/
def startsWithList : List Char → List Char → Bool
  | _, [] => true
  | [], _ :: _ => false
  | a :: s, b :: p => a == b && startsWithList s p

/-- `_needsTrust` from the source: `url.lower().startswith('https://')`
(the `url is not None` guard is vacuous for a string argument). -/
def needsTrust (url : String) : Bool :=
  startsWithList (url.data.map lowerChar) "https://".data

/-- The confirmation test of `_installCert`: `answer.lower() == 'y'`. -/
def answerIsYes (answer : String) : Bool :=
  answer.data.map lowerChar == ['y']

/-- Result of one CLI operation: the trust file afterwards (`none` when the
file still does not exist), the returned status code, whether `_readTrust`
ran, whether `_storeTrust` ran, and whether an exception escaped the
operation uncaught. -/
structure OpResult where
  file : Option Trust
  rc : Nat
  didRead : Bool
  didWrite : Bool
  raised : Bool
  deriving Repr, DecidableEq

/-- `_installCert`. `fetched` is the outcome of the certificate fetch
(`some pem` on success, `none` on connection/timeout/handshake failure);
`autoAccept` is `args.y`; `answer` is the interactive reply that would be
read when the prompt is shown. On fetch failure the source's `except`
handler evaluates `self._log` — but `self` is undefined in this
module-level function, so a `NameError` escapes `_installCert` uncaught
(`raised := true`; the interpreter then exits with status 1 and no warning
is logged). -/
def installCert (url : String) (fetched : Option String) (autoAccept : Bool)
    (answer : String) (file : Option Trust) : OpResult :=
  if needsTrust url then
    match fetched with
    | none =>
        { file := file, rc := 1, didRead := false, didWrite := false,
          raised := true }
    | some cert =>
        if autoAccept = false ∧ answerIsYes answer = false then
          { file := file, rc := 1, didRead := false, didWrite := false,
            raised := false }
        else
          { file := some (setKey (file.getD []) url cert), rc := 0,
            didRead := true, didWrite := true, raised := false }
  else
    { file := file, rc := 0, didRead := false, didWrite := false,
      raised := false }

/-- `_uninstallCert`: remove the entry only when present and not the
disabled marker; otherwise an informational no-op. -/
def uninstallCert (url : String) (file : Option Trust) : OpResult :=
  let trust := file.getD []
  if (lookup trust url).isSome = true ∧ lookup trust url ≠ some DISABLED_MARKER then
    { file := some (delKey trust url), rc := 0, didRead := true,
      didWrite := true, raised := false }
  else
    { file := file, rc := 0, didRead := true, didWrite := false,
      raised := false }

/-- `_disableTrust`: gated on `_needsTrust`; no-op when already disabled,
otherwise store the marker and save. -/
def disableTrust (url : String) (file : Option Trust) : OpResult :=
  if needsTrust url then
    let trust := file.getD []
    if lookup trust url = some DISABLED_MARKER then
      { file := file, rc := 0, didRead := true, didWrite := false,
        raised := false }
    else
      { file := some (setKey trust url DISABLED_MARKER), rc := 0,
        didRead := true, didWrite := true, raised := false }
  else
    { file := file, rc := 0, didRead := false, didWrite := false,
      raised := false }

/-- `_enableTrust`: remove the entry only when it is the disabled marker;
otherwise an informational no-op. -/
def enableTrust (url : String) (file : Option Trust) : OpResult :=
  let trust := file.getD []
  if lookup trust url = some DISABLED_MARKER then
    { file := some (delKey trust url), rc := 0, didRead := true,
      didWrite := true, raised := false }
  else
    { file := file, rc := 0, didRead := true, didWrite := false,
      raised := false }

/-- `stat.S_IREAD`. -/
def S_IREAD : Nat := 0o400
/-- `stat.S_IWRITE`. -/
def S_IWRITE : Nat := 0o200
/-- `stat.S_IRUSR`. -/
def S_IRUSR : Nat := 0o400
/-- `stat.S_IWUSR`. -/
def S_IWUSR : Nat := 0o200
/-- `stat.S_IRGRP`. -/
def S_IRGRP : Nat := 0o40
/-- `stat.S_IROTH`. -/
def S_IROTH : Nat := 0o4

/-- `_TRUST_PERMISSIONS` from the source. -/
def TRUST_PERMISSIONS : Nat :=
  S_IREAD ||| S_IWRITE ||| S_IRUSR ||| S_IWUSR ||| S_IRGRP ||| S_IROTH

/-- The permission bits of the trust file after `_storeTrust` runs, as a
function of the prior bits: `chmod` sets the absolute mode
`_TRUST_PERMISSIONS`, ignoring the prior mode. -/
def storeTrustMode (_priorMode : Nat) : Nat := TRUST_PERMISSIONS

/-- Entries of the store for URL `u` holding the disabled marker. -/
def markerCount : Trust → String → Nat
  | [], _ => 0
  | (k, w) :: t, u =>
    (if k = u ∧ w = DISABLED_MARKER then 1 else 0) + markerCount t u

theorem lookup_setKey_self (t : Trust) (u v : String) :
    lookup (setKey t u v) u = some v := by
  induction t with
  | nil => simp [setKey, lookup]
  | cons p t ih =>
    obtain ⟨k, w⟩ := p
    by_cases h : k = u
    · simp [setKey, h, lookup]
    · simp [setKey, h, lookup, ih]

theorem setKey_idem (t : Trust) (u v : String) :
    setKey (setKey t u v) u v = setKey t u v := by
  induction t with
  | nil => simp [setKey]
  | cons p t ih =>
    obtain ⟨k, w⟩ := p
    by_cases h : k = u
    · simp [setKey, h]
    · simp [setKey, h, ih]

theorem lookup_delKey_self (t : Trust) (u : String) :
    lookup (delKey t u) u = none := by
  induction t with
  | nil => rfl
  | cons p t ih =>
    obtain ⟨k, w⟩ := p
    by_cases h : k = u
    · simp [delKey, h, ih]
    · simp [delKey, h, lookup, ih]

theorem delKey_of_lookup_none (t : Trust) (u : String)
    (h : lookup t u = none) : delKey t u = t := by
  induction t with
  | nil => rfl
  | cons p t ih =>
    obtain ⟨k, w⟩ := p
    by_cases hk : k = u
    · simp [lookup, hk] at h
    · simp only [lookup, if_neg hk] at h
      simp [delKey, hk, ih h]

theorem setKey_of_lookup_none (t : Trust) (u v : String)
    (h : lookup t u = none) : setKey t u v = t ++ [(u, v)] := by
  induction t with
  | nil => rfl
  | cons p t ih =>
    obtain ⟨k, w⟩ := p
    by_cases hk : k = u
    · simp [lookup, hk] at h
    · simp only [lookup, if_neg hk] at h
      simp [setKey, hk, ih h]

theorem lookup_append_of_left_none (s t : Trust) (u : String)
    (h : lookup s u = none) : lookup (s ++ t) u = lookup t u := by
  induction s with
  | nil => rfl
  | cons p s ih =>
    obtain ⟨k, w⟩ := p
    by_cases hk : k = u
    · simp [lookup, hk] at h
    · simp only [lookup, if_neg hk] at h
      simp [lookup, hk, ih h]

theorem delKey_append (s t : Trust) (u : String) :
    delKey (s ++ t) u = delKey s u ++ delKey t u := by
  induction s with
  | nil => rfl
  | cons p s ih =>
    obtain ⟨k, w⟩ := p
    by_cases hk : k = u
    · simp [delKey, hk, ih]
    · simp [delKey, hk, ih]

theorem markerCount_of_lookup_none (t : Trust) (u : String)
    (h : lookup t u = none) : markerCount t u = 0 := by
  induction t with
  | nil => rfl
  | cons p t ih =>
    obtain ⟨k, w⟩ := p
    by_cases hk : k = u
    · simp [lookup, hk] at h
    · simp only [lookup, if_neg hk] at h
      simp [markerCount, hk, ih h]

theorem lookup_none_of_not_mem_keys (t : Trust) (u : String)
    (h : u ∉ keys t) : lookup t u = none := by
  induction t with
  | nil => rfl
  | cons p t ih =>
    obtain ⟨k, w⟩ := p
    simp only [keys, List.map_cons, List.mem_cons, not_or] at h
    have hk : k ≠ u := fun e => h.1 e.symm
    simp [lookup, hk, ih (by simpa [keys] using h.2)]

theorem markerCount_setKey_marker (t : Trust) (u : String)
    (hnd : (keys t).Nodup) :
    markerCount (setKey t u DISABLED_MARKER) u = 1 := by
  induction t with
  | nil => simp [setKey, markerCount]
  | cons p t ih =>
    obtain ⟨k, w⟩ := p
    simp only [keys, List.map_cons, List.nodup_cons] at hnd
    by_cases hk : k = u
    · subst hk
      have h0 : markerCount t k = 0 :=
        markerCount_of_lookup_none t k
          (lookup_none_of_not_mem_keys t k hnd.1)
      simp [setKey, markerCount, h0]
    · have := ih hnd.2
      simp [setKey, markerCount, hk, this]

theorem markerCount_of_lookup_marker (t : Trust) (u : String)
    (hnd : (keys t).Nodup) (h : lookup t u = some DISABLED_MARKER) :
    markerCount t u = 1 := by
  induction t with
  | nil => simp [lookup] at h
  | cons p t ih =>
    obtain ⟨k, w⟩ := p
    simp only [keys, List.map_cons, List.nodup_cons] at hnd
    by_cases hk : k = u
    · subst hk
      have h : w = DISABLED_MARKER := by simpa [lookup] using h
      have h0 : markerCount t k = 0 :=
        markerCount_of_lookup_none t k
          (lookup_none_of_not_mem_keys t k hnd.1)
      simp [markerCount, h, h0]
    · simp only [lookup, if_neg hk] at h
      have := ih hnd.2 h
      simp [markerCount, hk, this]

theorem installCert_idem (url cert answer : String) (file : Option Trust) :
    installCert url (some cert) true answer
        (installCert url (some cert) true answer file).file =
      installCert url (some cert) true answer file := by
  cases hu : needsTrust url with
  | true => simp [installCert, hu, setKey_idem]
  | false => simp [installCert, hu]

theorem uninstallCert_second_noop (url : String) (file : Option Trust) :
    uninstallCert url (uninstallCert url file).file =
      { file := (uninstallCert url file).file, rc := 0, didRead := true,
        didWrite := false, raised := false } := by
  by_cases h : (lookup (file.getD []) url).isSome = true ∧
      lookup (file.getD []) url ≠ some DISABLED_MARKER
  · simp [uninstallCert, h, lookup_delKey_self]
  · simp [uninstallCert, h]

theorem disableTrust_second_noop (url : String) (file : Option Trust) :
    disableTrust url (disableTrust url file).file =
      { file := (disableTrust url file).file, rc := 0,
        didRead := needsTrust url, didWrite := false, raised := false } := by
  cases hu : needsTrust url with
  | true =>
    by_cases hm : lookup (file.getD []) url = some DISABLED_MARKER
    · simp [disableTrust, hu, hm]
    · simp [disableTrust, hu, hm, lookup_setKey_self]
  | false => simp [disableTrust, hu]

theorem enableTrust_second_noop (url : String) (file : Option Trust) :
    enableTrust url (enableTrust url file).file =
      { file := (enableTrust url file).file, rc := 0, didRead := true,
        didWrite := false, raised := false } := by
  by_cases h : lookup (file.getD []) url = some DISABLED_MARKER
  · simp [enableTrust, h, lookup_delKey_self]
  · simp [enableTrust, h]

theorem disableTrust_markerCount_one (url : String) (file : Option Trust)
    (hu : needsTrust url = true) (hnd : (keys (file.getD [])).Nodup) :
    markerCount ((disableTrust url file).file.getD []) url = 1 := by
  by_cases hm : lookup (file.getD []) url = some DISABLED_MARKER
  · simpa [disableTrust, hu, hm] using
      markerCount_of_lookup_marker (file.getD []) url hnd hm
  · simpa [disableTrust, hu, hm] using
      markerCount_setKey_marker (file.getD []) url hnd

/-- C1: the claim says a failed certificate fetch during `install-cert` on a
secure URL is caught at the operation boundary, logged as a warning, and
converted to a non-zero status with no exception escaping. In the code the
`except` handler at the fetch site evaluates `self._log`, and `self` is
undefined in the module-level function `_installCert`, so a `NameError`
escapes the operation uncaught (`raised = true`) and no warning is logged;
the trust store is still untouched (`didWrite = false`). -/
theorem C1_fetch_failure_uncaught_exception :
    installCert "https://a.example" none true ""
        (some [("https://b.example", "C")]) =
      { file := some [("https://b.example", "C")], rc := 1, didRead := false,
        didWrite := false, raised := true } := by
  decide

/-- C2: for every URL that does not start with `https://` (case-insensitive),
`install-cert` and `disable-trust` are no-ops: status 0, the trust file is
neither read nor written, and its content is unchanged. -/
theorem C2_non_secure_url_noop (url answer : String) (fetched : Option String)
    (autoAccept : Bool) (file : Option Trust)
    (h : needsTrust url = false) :
    installCert url fetched autoAccept answer file =
      { file := file, rc := 0, didRead := false, didWrite := false,
        raised := false } ∧
    disableTrust url file =
      { file := file, rc := 0, didRead := false, didWrite := false,
        raised := false } := by
  constructor
  · simp [installCert, h]
  · simp [disableTrust, h]

theorem C2_non_secure_url_noop_witness :
    installCert "http://a.example" (some "C") false "n"
        (some [("k", "v")]) =
      { file := some [("k", "v")], rc := 0, didRead := false,
        didWrite := false, raised := false } ∧
    disableTrust "http://a.example" (some [("k", "v")]) =
      { file := some [("k", "v")], rc := 0, didRead := false,
        didWrite := false, raised := false } :=
  C2_non_secure_url_noop "http://a.example" "n" (some "C") false
    (some [("k", "v")]) (by decide)

/-- C3: `uninstall-cert` never removes or modifies an entry holding the
disabled-trust marker (no-op, status 0, no write), and `enable-trust` never
removes or modifies an entry holding a pinned certificate, i.e. any value
other than the marker (no-op, status 0, no write). -/
theorem C3_type_mismatch_entries_untouched (url : String) (file : Option Trust) :
    (lookup (file.getD []) url = some DISABLED_MARKER →
      uninstallCert url file =
        { file := file, rc := 0, didRead := true, didWrite := false,
          raised := false }) ∧
    (∀ c, lookup (file.getD []) url = some c → c ≠ DISABLED_MARKER →
      enableTrust url file =
        { file := file, rc := 0, didRead := true, didWrite := false,
          raised := false }) := by
  constructor
  · intro h
    simp [uninstallCert, h]
  · intro c hc hne
    have hm : lookup (file.getD []) url ≠ some DISABLED_MARKER := by
      rw [hc]
      simpa using hne
    simp [enableTrust, hm]

theorem C3_type_mismatch_entries_untouched_witness :
    uninstallCert "https://a.example"
        (some [("https://a.example", DISABLED_MARKER)]) =
      { file := some [("https://a.example", DISABLED_MARKER)], rc := 0,
        didRead := true, didWrite := false, raised := false } ∧
    enableTrust "https://b.example"
        (some [("https://b.example", "CERT")]) =
      { file := some [("https://b.example", "CERT")], rc := 0,
        didRead := true, didWrite := false, raised := false } :=
  ⟨(C3_type_mismatch_entries_untouched "https://a.example"
      (some [("https://a.example", DISABLED_MARKER)])).1 (by decide),
   (C3_type_mismatch_entries_untouched "https://b.example"
      (some [("https://b.example", "CERT")])).2 "CERT" (by decide) (by decide)⟩

/-- C4, counterexample to the claim as stated: `disable-trust` is gated on
the secure-scheme check, so for a store in which a non-`https://` URL has a
pinned-certificate entry, the operation does not replace that entry with the
marker and does not save — contradicting the claim's unconditional "for
every store [and URL]". -/
theorem C4_counterexample :
    disableTrust "http://pinned.example"
        (some [("http://pinned.example", "CERT")]) =
      { file := some [("http://pinned.example", "CERT")], rc := 0,
        didRead := false, didWrite := false, raised := false } ∧
    ¬ lookup ((disableTrust "http://pinned.example"
          (some [("http://pinned.example", "CERT")])).file.getD [])
        "http://pinned.example" = some DISABLED_MARKER := by
  decide

/-- C4, amended: for every store in which a secure-scheme URL
(case-insensitive `https://` prefix) has a pinned-certificate entry (a value
other than the marker), `disable-trust` replaces that entry with the
disabled-trust marker and saves the store, so the prior certificate is no
longer present for that URL. -/
theorem C4_disable_overwrites_pinned (url c : String) (file : Option Trust)
    (hu : needsTrust url = true)
    (hc : lookup (file.getD []) url = some c)
    (hm : c ≠ DISABLED_MARKER) :
    disableTrust url file =
      { file := some (setKey (file.getD []) url DISABLED_MARKER), rc := 0,
        didRead := true, didWrite := true, raised := false } ∧
    lookup ((disableTrust url file).file.getD []) url = some DISABLED_MARKER := by
  have hne : lookup (file.getD []) url ≠ some DISABLED_MARKER := by
    rw [hc]
    simpa using hm
  have h1 : disableTrust url file =
      { file := some (setKey (file.getD []) url DISABLED_MARKER), rc := 0,
        didRead := true, didWrite := true, raised := false } := by
    simp [disableTrust, hu, hne]
  refine ⟨h1, ?_⟩
  rw [h1]
  simpa using lookup_setKey_self (file.getD []) url DISABLED_MARKER

theorem C4_disable_overwrites_pinned_witness :
    disableTrust "https://a.example" (some [("https://a.example", "CERT")]) =
      { file := some (setKey [("https://a.example", "CERT")] "https://a.example"
          DISABLED_MARKER), rc := 0, didRead := true, didWrite := true,
        raised := false } ∧
    lookup ((disableTrust "https://a.example"
          (some [("https://a.example", "CERT")])).file.getD [])
        "https://a.example" = some DISABLED_MARKER :=
  C4_disable_overwrites_pinned "https://a.example" "CERT"
    (some [("https://a.example", "CERT")]) (by decide) (by decide) (by decide)

/-- C5: each of the four operations is idempotent — repeating the same
invocation (same URL; for `install-cert`, the same fetched certificate with
auto-accept) reproduces the state after one invocation, and the repeated
call returns status 0 without writing; in particular two `disable-trust`
calls on a secure-scheme URL leave exactly one disabled-marker entry for the
URL (on a store with unique keys, as any store loaded from JSON has), and
the second of two `uninstall-cert` calls is a no-op returning success. -/
theorem C5_operations_idempotent (url cert answer : String)
    (file : Option Trust) :
    installCert url (some cert) true answer
        (installCert url (some cert) true answer file).file =
      installCert url (some cert) true answer file ∧
    (installCert url (some cert) true answer
        (installCert url (some cert) true answer file).file).rc = 0 ∧
    ((uninstallCert url (uninstallCert url file).file).file =
        (uninstallCert url file).file ∧
      (uninstallCert url (uninstallCert url file).file).rc = 0 ∧
      (uninstallCert url (uninstallCert url file).file).didWrite = false) ∧
    ((disableTrust url (disableTrust url file).file).file =
        (disableTrust url file).file ∧
      (disableTrust url (disableTrust url file).file).rc = 0 ∧
      (disableTrust url (disableTrust url file).file).didWrite = false) ∧
    ((enableTrust url (enableTrust url file).file).file =
        (enableTrust url file).file ∧
      (enableTrust url (enableTrust url file).file).rc = 0 ∧
      (enableTrust url (enableTrust url file).file).didWrite = false) ∧
    (needsTrust url = true → (keys (file.getD [])).Nodup →
      markerCount ((disableTrust url (disableTrust url file).file).file.getD [])
        url = 1) := by
  refine ⟨installCert_idem url cert answer file, ?_,
    by simp [uninstallCert_second_noop], by simp [disableTrust_second_noop],
    by simp [enableTrust_second_noop], ?_⟩
  · rw [installCert_idem url cert answer file]
    cases hu : needsTrust url with
    | true => simp [installCert, hu]
    | false => simp [installCert, hu]
  · intro hu hnd
    simpa [disableTrust_second_noop] using
      disableTrust_markerCount_one url file hu hnd

theorem C5_operations_idempotent_witness :
    markerCount ((disableTrust "https://a.example"
        (disableTrust "https://a.example"
          (some [("https://a.example", "OLD")])).file).file.getD [])
      "https://a.example" = 1 :=
  (C5_operations_idempotent "https://a.example" "CERT" ""
      (some [("https://a.example", "OLD")])).2.2.2.2.2 (by decide) (by decide)

/-- C6, counterexample to the claim as stated: when the URL already has an
entry before the `install-cert`, pinning overwrites it and `uninstall-cert`
then deletes the entry outright, so the round trip does not restore the
prior store. -/
theorem C6_counterexample :
    (uninstallCert "https://a.example"
        (installCert "https://a.example" (some "NEW") true ""
          (some [("https://a.example", "OLD")])).file).file ≠
      some [("https://a.example", "OLD")] := by
  decide

/-- C6, amended: for every store, URL and fetched certificate, provided the
URL has no entry in the store before the pin and the fetched certificate is
not the disabled-trust marker string, `install-cert` (auto-accept) followed
by `uninstall-cert` on the same URL restores the store contents to their
state before the pin, and the unpin returns status 0. -/
theorem C6_pin_unpin_roundtrip (url cert answer : String) (file : Option Trust)
    (h : lookup (file.getD []) url = none) (hm : cert ≠ DISABLED_MARKER) :
    ((uninstallCert url
        (installCert url (some cert) true answer file).file).file).getD [] =
      file.getD [] ∧
    (uninstallCert url
        (installCert url (some cert) true answer file).file).rc = 0 := by
  cases hu : needsTrust url with
  | false =>
    have hfile : (installCert url (some cert) true answer file).file = file := by
      simp [installCert, hu]
    rw [hfile]
    simp [uninstallCert, h]
  | true =>
    have hset : setKey (file.getD []) url cert = file.getD [] ++ [(url, cert)] :=
      setKey_of_lookup_none (file.getD []) url cert h
    have hfile : (installCert url (some cert) true answer file).file =
        some (file.getD [] ++ [(url, cert)]) := by
      simp [installCert, hu, hset]
    have hlook : lookup (file.getD [] ++ [(url, cert)]) url = some cert := by
      rw [lookup_append_of_left_none (file.getD []) _ url h]
      simp [lookup]
    have hdel : delKey (file.getD [] ++ [(url, cert)]) url = file.getD [] := by
      rw [delKey_append, delKey_of_lookup_none (file.getD []) url h]
      simp [delKey]
    rw [hfile]
    simp [uninstallCert, hlook, hm, hdel]

theorem C6_pin_unpin_roundtrip_witness :
    ((uninstallCert "https://a.example"
        (installCert "https://a.example" (some "C") true ""
          (some [("https://b.example", "X")])).file).file).getD [] =
      [("https://b.example", "X")] ∧
    (uninstallCert "https://a.example"
        (installCert "https://a.example" (some "C") true ""
          (some [("https://b.example", "X")])).file).rc = 0 :=
  C6_pin_unpin_roundtrip "https://a.example" "C" ""
    (some [("https://b.example", "X")]) (by decide) (by decide)

/-- C7, counterexample to the claim as stated: the confirmation check is
`answer.lower() == 'y'`, so the answer `"Y"` — a string other than `"y"` —
does not abort: the pin proceeds with status 0 and writes the store. -/
theorem C7_counterexample :
    (installCert "https://a.example" (some "CERT") false "Y" (some [])).rc = 0 ∧
    (installCert "https://a.example" (some "CERT") false "Y" (some [])).file =
      some [("https://a.example", "CERT")] ∧
    (installCert "https://a.example" (some "CERT") false "Y"
        (some [])).didWrite = true := by
  decide

/-- C7, amended: for every `install-cert` invocation without auto-accept on
a secure-scheme URL with a successfully fetched certificate, if the
lowercased confirmation answer is not `"y"`, the operation aborts with
status 1 and the trust store is neither read nor written. -/
theorem C7_decline_aborts (url cert answer : String) (file : Option Trust)
    (hu : needsTrust url = true) (ha : answerIsYes answer = false) :
    installCert url (some cert) false answer file =
      { file := file, rc := 1, didRead := false, didWrite := false,
        raised := false } := by
  simp [installCert, hu, ha]

theorem C7_decline_aborts_witness :
    installCert "https://a.example" (some "CERT") false "n" (some []) =
      { file := some [], rc := 1, didRead := false, didWrite := false,
        raised := false } :=
  C7_decline_aborts "https://a.example" "CERT" "n" (some [])
    (by decide) (by decide)

/-- C8: after every save, the trust file's permission bits are exactly
`0o644` (owner read-write, group read-only, other read-only), regardless of
the prior mode: `_storeTrust` chmods to `_TRUST_PERMISSIONS`, whose value is
`0o644`. -/
theorem C8_save_sets_mode_0644 (priorMode : Nat) :
    storeTrustMode priorMode = 0o644 := by
  unfold storeTrustMode
  decide

/-- C9, counterexample to the claim as stated: the claim says the group
permission bits include write, but `_TRUST_PERMISSIONS` has the group-write
bit (`0o20`) clear. -/
theorem C9_counterexample : TRUST_PERMISSIONS &&& 0o20 = 0 := by
  decide

/-- C9, amended: on every write the trust file is given owner read-write,
group read-only and other read-only permissions — the group bits do not
include write. -/
theorem C9_mode_group_read_only (priorMode : Nat) :
    storeTrustMode priorMode &&& 0o700 = 0o600 ∧
    storeTrustMode priorMode &&& 0o70 = 0o40 ∧
    storeTrustMode priorMode &&& 0o7 = 0o4 := by
  unfold storeTrustMode
  refine ⟨?_, ?_, ?_⟩ <;> decide

/-- C10: if `install-cert` stores a certificate whose text is literally the
marker `AnyCertificate` for a secure-scheme URL, the resulting entry is
indistinguishable from a disabled-trust entry: `uninstall-cert` on that URL
is a no-op (status 0, no write, entry left in place) while `enable-trust`
removes the entry and saves. -/
theorem C10_marker_valued_cert_indistinguishable (url : String)
    (file : Option Trust) (hu : needsTrust url = true) :
    lookup ((installCert url (some DISABLED_MARKER) true "" file).file.getD [])
        url = some DISABLED_MARKER ∧
    uninstallCert url (installCert url (some DISABLED_MARKER) true "" file).file =
      { file := (installCert url (some DISABLED_MARKER) true "" file).file,
        rc := 0, didRead := true, didWrite := false, raised := false } ∧
    lookup ((enableTrust url
        (installCert url (some DISABLED_MARKER) true "" file).file).file.getD [])
        url = none ∧
    (enableTrust url
        (installCert url (some DISABLED_MARKER) true "" file).file).didWrite =
      true ∧
    (enableTrust url
        (installCert url (some DISABLED_MARKER) true "" file).file).rc = 0 := by
  have hfile : (installCert url (some DISABLED_MARKER) true "" file).file =
      some (setKey (file.getD []) url DISABLED_MARKER) := by
    simp [installCert, hu]
  have hlook := lookup_setKey_self (file.getD []) url DISABLED_MARKER
  refine ⟨?_, ?_, ?_, ?_, ?_⟩
  · rw [hfile]
    simpa using hlook
  · rw [hfile]
    simp [uninstallCert, hlook]
  · rw [hfile]
    simp [enableTrust, hlook, lookup_delKey_self]
  · rw [hfile]
    simp [enableTrust, hlook]
  · rw [hfile]
    simp [enableTrust, hlook]

theorem C10_marker_valued_cert_indistinguishable_witness :
    lookup ((installCert "https://a.example" (some DISABLED_MARKER) true ""
        (some [])).file.getD []) "https://a.example" = some DISABLED_MARKER ∧
    uninstallCert "https://a.example"
        (installCert "https://a.example" (some DISABLED_MARKER) true ""
          (some [])).file =
      { file := (installCert "https://a.example" (some DISABLED_MARKER) true ""
          (some [])).file, rc := 0, didRead := true, didWrite := false,
        raised := false } :=
  ⟨(C10_marker_valued_cert_indistinguishable "https://a.example" (some [])
      (by decide)).1,
   (C10_marker_valued_cert_indistinguishable "https://a.example" (some [])
      (by decide)).2.1⟩

end EamUtility
